import Mathlib

set_option autoImplicit false

/-!
# Verification of `src/generate_feeds.py`

A shallow embedding of the literature-feed script: configuration loading,
the OpenAlex work fetcher, the journal-impact scorer with its module-level
cache, the RSS feed renderer, and the orchestrating main loop.

External effects are modelled as explicit oracles:
* the filesystem read in `load_settings` is `fs : String → Except FileErr String`;
* `yaml.safe_load` is `parseYaml : String → Except YamlErr Config`;
* the works-search HTTP call is `fetchO : FetchReq → Except FetchErr (List Work)`;
* the whole fallible tail of the sources-endpoint lookup
  (`requests.get` + `raise_for_status` + `.json()` + `float(...)`) is
  `net : String → Except LookupErr ℚ`.
Scores are modelled as rationals; none of the verified properties depend on
floating-point rounding.  The module-level `journal_cache` dict is threaded
explicitly as an association list, and the scorer additionally returns the
list of journal ids for which it performed a network call, so that
"no network call" is a provable statement.
-/

/-- Exception inside the scorer's `try` block: `raise_for_status()` on a
non-2xx response, a malformed `.json()` body, or a failing `float(...)`
conversion. -/
inductive LookupErr where
  | httpError (code : Nat)
  | malformedJson
  | badFloat
  deriving DecidableEq, Repr

/-- The inner `{"display_name": ...}` object of an authorship. -/
structure AuthorObj where
  display_name : String
  deriving DecidableEq, Repr

/-- One element of a work's `authorships` array: the script reads
`a["author"]["display_name"]`. -/
structure Authorship where
  author : AuthorObj
  deriving DecidableEq, Repr

/-- The fields of an OpenAlex work record that the script reads.  Optional
fields are `Option`s; `primary_location_source_id` is the value of the
`work.get("primary_location", {}).get("source", {}).get("id")` chain
(`none` when any link of the chain is missing). -/
structure Work where
  title? : Option String
  doi? : Option String
  abstract? : Option String
  publication_date? : Option String
  authorships : List Authorship
  primary_location_source_id : Option String
  deriving DecidableEq, Repr

/-- The module-level `journal_cache` dict, as an association list from
journal id to impact score. -/
abbrev Cache := List (String × ℚ)

/-- The membership test `journal_id in journal_cache` combined with the
read `journal_cache[journal_id]`. -/
def Cache.find (c : Cache) (j : String) : Option ℚ :=
  c.lookup j

/-- The write `journal_cache[journal_id] = impact`. -/
def Cache.insert (c : Cache) (j : String) (v : ℚ) : Cache :=
  (j, v) :: c

/-- Characters after the last `/` of the input (all of it when there is
no `/`): the accumulator is reset at each `/`. -/
def lastSegAux : List Char → List Char → List Char
  | acc, [] => acc
  | acc, c :: cs => if c = '/' then lastSegAux [] cs else lastSegAux (acc ++ [c]) cs

/-- The extraction `url.rsplit("/", 1)[-1]`: the substring after the last `/` (the whole
string when there is no `/`). -/
def lastSeg (s : String) : String :=
  ⟨lastSegAux [] s.data⟩

/-- Result of one call to the scorer: the returned score, the cache after
the call, and the journal ids for which a network request was issued. -/
structure ScoreResult where
  score : ℚ
  cache : Cache
  calls : List String
  deriving DecidableEq, Repr

/-- The body of the `try` block of `get_journal_impact_score`
(lines 30–45): extract the journal id, short-circuit on a falsy id or a
cache hit, otherwise call the sources endpoint, memoize and return.  The
`Except` value is the outcome of the block; the second component records
the network calls made (issued even when the call then raises). -/
def impactTryBody (net : String → Except LookupErr ℚ) (cache : Cache)
    (work : Work) : Except LookupErr (ℚ × Cache) × List String :=
  match work.primary_location_source_id with
  | none => (.ok (0, cache), [])
  | some journal_id_url =>
    if journal_id_url = "" then (.ok (0, cache), [])
    else
      let journal_id := lastSeg journal_id_url
      match cache.find journal_id with
      | some v => (.ok (v, cache), [])
      | none =>
        match net journal_id with
        | .ok impact => (.ok (impact, cache.insert journal_id impact), [journal_id])
        | .error e => (.error e, [journal_id])

/-- Function `get_journal_impact_score(work, email)` (lines 28–48): run the `try`
block; on any exception, log and return `0.0` with the cache as the block
left it (the block never writes the cache before raising, so this is the
input cache).  Total by construction: no exception escapes. -/
def get_journal_impact_score (net : String → Except LookupErr ℚ)
    (cache : Cache) (work : Work) : ScoreResult :=
  match impactTryBody net cache work with
  | (.ok (v, c), calls) => ⟨v, c, calls⟩
  | (.error _, calls) => ⟨0, cache, calls⟩

/-- The score `get_journal_impact_score` returns, as a function of the
oracle alone (no cache): `0` for a falsy id, else the oracle's answer for
the extracted journal id, with errors mapped to `0`. -/
def pureScore (net : String → Except LookupErr ℚ) (work : Work) : ℚ :=
  match work.primary_location_source_id with
  | none => 0
  | some u =>
    if u = "" then 0
    else
      match net (lastSeg u) with
      | .ok v => v
      | .error _ => 0

/-- A cache state is consistent with the oracle when every memoized entry
is the oracle's successful answer — the invariant the scorer maintains. -/
def Consistent (net : String → Except LookupErr ℚ) (cache : Cache) : Prop :=
  ∀ j v, cache.find j = some v → net j = .ok v

/-- Line 129: `[w for w in works if get_journal_impact_score(w, email) >=
impact_threshold]`, threading the module-level cache through the
left-to-right evaluation of the comprehension. -/
def filterWorks (net : String → Except LookupErr ℚ) (T : ℚ) :
    Cache → List Work → List Work × Cache
  | cache, [] => ([], cache)
  | cache, w :: ws =>
    let r := get_journal_impact_score net cache w
    let rest := filterWorks net T r.cache ws
    (if T ≤ r.score then w :: rest.1 else rest.1, rest.2)

/-- The sort key of line 132: `w.get("publication_date", "1900-01-01")`. -/
def dateKey (w : Work) : String :=
  w.publication_date?.getD ("1900-01-01")

/-- Lines 131–133: `filtered_works.sort(key=..., reverse=True)` — a stable
sort, descending by `dateKey` under string comparison. -/
def sortWorks (ws : List Work) : List Work :=
  ws.mergeSort fun a b => decide (dateKey b ≤ dateKey a)

/-- The partial escape `title.replace("<", "&lt;").replace(">", "&gt;")`
(line 64). -/
def escapeLtGt (s : String) : String :=
  (s.replace ("<") ("&lt;")).replace (">") ("&gt;")

/-- One `<item>` of the rendered feed. -/
structure FeedEntry where
  entryId : String
  title : String
  link : String
  description : String
  pubDate? : Option String
  deriving DecidableEq, Repr

/-- The rendered RSS document: feed-level metadata plus the entries. -/
structure Feed where
  title : String
  alternateLink : String
  selfLink : String
  description : String
  language : String
  entries : List FeedEntry
  deriving DecidableEq, Repr

/-- The per-item transformation of the loop body at lines 62–86.  The date
pipeline `datetime.fromisoformat` / `.replace(tzinfo=timezone.utc)` /
`format_datetime` is abstracted by the oracles `parseIso`, `toUtc` and
`fmt2822` over an abstract datetime type `DT`; a parse exception yields an
entry with no `pubDate`. -/
def renderItem {DT E : Type} (parseIso : String → Except E DT)
    (toUtc : DT → DT) (fmt2822 : DT → String) (work : Work) : FeedEntry :=
  let raw_title := work.title?.getD ("No title")
  let title := escapeLtGt raw_title
  let doi_raw := work.doi?.getD ("")
  let abstract := work.abstract?.getD ("No abstract available")
  let pub_date := work.publication_date?.getD ("2024-01-01")
  let authors := String.intercalate (", ")
    (work.authorships.map fun a => a.author.display_name)
  let link_url :=
    if doi_raw.startsWith ("http") then doi_raw
    else if doi_raw ≠ "" then "https://doi.org/" ++ doi_raw
    else "https://openalex.org"
  { entryId := link_url
    title := title
    link := link_url
    description := "<b>Authors:</b> " ++ authors ++
      "<br/><br/><b>Abstract:</b><br/>" ++ abstract
    pubDate? :=
      match parseIso pub_date with
      | .ok dt => some (fmt2822 (toUtc dt))
      | .error _ => none }

/-- Function `generate_rss_feed(feed_title, items, output_file)`
(lines 51–87):
feed metadata, then one entry per item of `items` in order.  An empty
`items` list still yields a (metadata-only) feed. -/
def generate_rss_feed {DT E : Type} (parseIso : String → Except E DT)
    (toUtc : DT → DT) (fmt2822 : DT → String) (feed_title : String)
    (items : List Work) (output_file : String) : Feed :=
  { title := feed_title
    alternateLink := "https://openalex.org"
    selfLink := "https://openalex.org/feeds/" ++ lastSeg output_file
    description := "Literature feed generated from OpenAlex for: " ++ feed_title
    language := "en"
    entries := items.map (renderItem parseIso toUtc fmt2822) }

/-! ## Configuration and orchestration -/

/-- Failure of `open(path)`. -/
inductive FileErr where
  | notFound
  | permissionDenied
  deriving DecidableEq, Repr

/-- Failure of `yaml.safe_load`. -/
inductive YamlErr where
  | scanError (msg : String)
  deriving DecidableEq, Repr

/-- Entries `{"id": ..., "name": ...}` of an `authors` query. -/
structure AuthorRef where
  id : String
  name : String
  deriving DecidableEq, Repr

/-- One entry of `config["queries"]`.  `feed_name` is required by the data
model; `type?` is `query.get("type", ...)`, and `search?`/`authors?` are
`none` when the corresponding key would raise `KeyError`. -/
structure QueryDef where
  type? : Option String
  feed_name : String
  search? : Option String
  authors? : Option (List AuthorRef)
  deriving DecidableEq, Repr

/-- The parsed settings mapping, restricted to the keys the script reads:
`email` (required), `impact_threshold` (`.get`, default `0.0`) and
`queries` (required). -/
structure Config where
  email? : Option String
  impact_threshold? : Option ℚ
  queries? : Option (List (String × QueryDef))
  deriving DecidableEq, Repr

/-- The two ways `load_settings` fails: `open` raises, or YAML parsing
raises.  Neither is caught anywhere in the script. -/
inductive ConfigError where
  | fileError (e : FileErr)
  | yamlError (e : YamlErr)
  deriving DecidableEq, Repr

/-- Function `load_settings(path)` (lines 11–13): open the file and parse it as
YAML; both failure modes propagate to the caller. -/
def load_settings (fs : String → Except FileErr String)
    (parseYaml : String → Except YamlErr Config) (path : String) :
    Except ConfigError Config :=
  match fs path with
  | .error e => .error (.fileError e)
  | .ok txt =>
    match parseYaml txt with
    | .error e => .error (.yamlError e)
    | .ok cfg => .ok cfg

/-- Failure of the works-search request (`raise_for_status` or transport). -/
inductive FetchErr where
  | httpStatus (code : Nat)
  | netDown
  deriving DecidableEq, Repr

/-- The `params` dict built in `main` before `fetch_openalex_works` adds
its own keys. -/
structure Params where
  search? : Option String
  filter : String
  sort : String
  deriving DecidableEq, Repr

/-- The full request sent to the works endpoint: `params` with
`per_page` and `mailto` injected (lines 18–19). -/
structure FetchReq where
  search? : Option String
  filter : String
  sort : String
  per_page : Nat
  mailto : String
  deriving DecidableEq, Repr

/-- Function `fetch_openalex_works(params, email, max_results)`
(lines 16–23):
inject `per_page` and `mailto` and perform one GET; a non-2xx status or
transport error propagates.  The Python default for `max_results` is 50;
`main` always uses it. -/
def fetch_openalex_works (fetchO : FetchReq → Except FetchErr (List Work))
    (params : Params) (email : String) (max_results : Nat) :
    Except FetchErr (List Work) :=
  fetchO { search? := params.search?, filter := params.filter,
           sort := params.sort, per_page := max_results, mailto := email }

/-- An uncaught exception of the run: a `KeyError` on a required dict key,
a works-search failure, or a configuration failure. -/
inductive RunErr where
  | keyErr (key : String)
  | fetch (e : FetchErr)
  | config (e : ConfigError)
  deriving DecidableEq, Repr

/-- One iteration of the `for key, query in config["queries"].items()`
loop (lines 99–136): dispatch on `query.get("type", "keyword")`, fetch,
filter by `impact_threshold`, sort, and render to `feeds/<feed_name>.xml`.
Returns the written output (`none` when the query was skipped by the
unknown-type branch) and the cache after the iteration. -/
def processQuery (fetchO : FetchReq → Except FetchErr (List Work))
    (net : String → Except LookupErr ℚ) (email : String) (T : ℚ)
    (cache : Cache) (q : QueryDef) :
    Except RunErr (Option (String × List Work) × Cache) :=
  let query_type := q.type?.getD ("keyword")
  let output_path := "feeds/" ++ q.feed_name ++ ".xml"
  if query_type = "keyword" then
    match q.search? with
    | none => .error (.keyErr ("search"))
    | some search_str =>
      match fetch_openalex_works fetchO
        { search? := some search_str,
          filter := "from_publication_date:2023-01-01",
          sort := "publication_date:desc" } email 50 with
      | .error e => .error (.fetch e)
      | .ok works =>
        let fr := filterWorks net T cache works
        .ok (some (output_path, sortWorks fr.1), fr.2)
  else if query_type = "authors" then
    match q.authors? with
    | none => .error (.keyErr ("authors"))
    | some authors =>
      let author_filter := String.intercalate ("|") (authors.map fun a => a.id)
      match fetch_openalex_works fetchO
        { search? := none,
          filter := "from_publication_date:2023-01-01,author.id:" ++ author_filter,
          sort := "publication_date:desc" } email 50 with
      | .error e => .error (.fetch e)
      | .ok works =>
        let fr := filterWorks net T cache works
        .ok (some (output_path, sortWorks fr.1), fr.2)
  else
    .ok (none, cache)

/-- The whole query loop: process the queries in order, threading the
journal cache and collecting the `(output_path, sorted filtered works)`
pairs actually written; the first uncaught exception aborts the run. -/
def runQueries (fetchO : FetchReq → Except FetchErr (List Work))
    (net : String → Except LookupErr ℚ) (email : String) (T : ℚ) :
    Cache → List (String × QueryDef) →
    Except RunErr (List (String × List Work))
  | _, [] => .ok []
  | cache, (_, q) :: rest =>
    match processQuery fetchO net email T cache q with
    | .error e => .error e
    | .ok (out, cache') =>
      match runQueries fetchO net email T cache' rest with
      | .error e => .error e
      | .ok outs =>
        .ok (match out with | some o => o :: outs | none => outs)

/-- Function `main()` (lines 90–136): load the settings, read `email` and
`impact_threshold` (default `0.0`), and run the query loop starting from
an empty journal cache.  A `load_settings` failure propagates and aborts
the run before any query is processed. -/
def mainRun (fs : String → Except FileErr String)
    (parseYaml : String → Except YamlErr Config)
    (fetchO : FetchReq → Except FetchErr (List Work))
    (net : String → Except LookupErr ℚ) :
    Except RunErr (List (String × List Work)) :=
  match load_settings fs parseYaml ("settings/openalex_settings.yaml") with
  | .error e => .error (.config e)
  | .ok config =>
    match config.email? with
    | none => .error (.keyErr ("email"))
    | some email =>
      let impact_threshold := config.impact_threshold?.getD 0
      match config.queries? with
      | none => .error (.keyErr ("queries"))
      | some queries => runQueries fetchO net email impact_threshold [] queries

/-! ## Theorems: the impact scorer -/

/-- Concrete work records used to instantiate the theorems below. -/
def workS1 : Work :=
  ⟨some ("T1"), none, none, some ("2024-03-01"), [], some ("https://openalex.org/S1")⟩

/-- A work whose `primary_location.source.id` chain resolved to nothing. -/
def workNoJournal : Work :=
  ⟨some ("T2"), none, none, some ("2024-02-01"), [], none⟩

/-- A second work hosted by the same journal as `workS1`. -/
def workS1b : Work :=
  ⟨some ("T3"), none, none, some ("2024-01-05"), [], some ("https://openalex.org/S1")⟩

/-- C1: any exception raised inside the scorer's `try` block is caught:
`get_journal_impact_score` returns exactly `0.0` (with the cache as the
caller had it), and — being a total function of the error outcome — never
propagates the exception.  The logged diagnostic is outside the model. -/
theorem impact_score_catches_all_errors
    (net : String → Except LookupErr ℚ) (cache : Cache) (work : Work)
    (e : LookupErr) (calls : List String)
    (h : impactTryBody net cache work = (.error e, calls)) :
    get_journal_impact_score net cache work = ⟨0, cache, calls⟩ := by
  unfold get_journal_impact_score
  rw [h]

/-- C1 witness: a sources endpoint that always returns a malformed body
makes the scorer return `0.0` for `workS1`, not raise. -/
theorem impact_score_catches_all_errors_witness :
    get_journal_impact_score (fun _ => .error .malformedJson) [] workS1
      = ⟨0, [], ["S1"]⟩ :=
  impact_score_catches_all_errors (fun _ => .error .malformedJson) [] workS1
    .malformedJson ["S1"] rfl

/-- C5: a work whose `primary_location.source.id` is missing or falsy
(the empty string) scores exactly `0.0` with no network call and no cache
change. -/
theorem missing_journal_id_scores_zero
    (net : String → Except LookupErr ℚ) (cache : Cache) (work : Work)
    (h : work.primary_location_source_id = none ∨
         work.primary_location_source_id = some ("")) :
    get_journal_impact_score net cache work = ⟨0, cache, []⟩ := by
  unfold get_journal_impact_score impactTryBody
  rcases h with h | h
  · rw [h]
  · rw [h]
    simp

/-- C5 witness: `workNoJournal` scores `0.0` with no call even when the
network would have answered. -/
theorem missing_journal_id_scores_zero_witness :
    get_journal_impact_score (fun _ => .ok 7) [] workNoJournal
      = ⟨0, [], []⟩ :=
  missing_journal_id_scores_zero (fun _ => .ok 7) [] workNoJournal (.inl rfl)

/-- C2: when two works resolve to the same journal id `j` not yet cached,
the first call performs the one network call and memoizes its value `v`;
the second call issues no network call and returns exactly the memoized
`v`. -/
theorem second_call_hits_cache
    (net : String → Except LookupErr ℚ) (cache : Cache)
    (work1 work2 : Work) (u1 u2 j : String) (v : ℚ)
    (h1 : work1.primary_location_source_id = some u1) (hu1 : u1 ≠ "")
    (h2 : work2.primary_location_source_id = some u2) (hu2 : u2 ≠ "")
    (hj1 : lastSeg u1 = j) (hj2 : lastSeg u2 = j)
    (hmiss : cache.find j = none) (hnet : net j = .ok v) :
    get_journal_impact_score net cache work1 = ⟨v, cache.insert j v, [j]⟩ ∧
    get_journal_impact_score net (cache.insert j v) work2
      = ⟨v, cache.insert j v, []⟩ := by
  constructor
  · unfold get_journal_impact_score impactTryBody
    rw [h1]
    simp [hu1, hj1, hmiss, hnet]
  · unfold get_journal_impact_score impactTryBody
    rw [h2]
    have hfind : (cache.insert j v).find j = some v := by
      simp [Cache.insert, Cache.find, List.lookup]
    simp [hu2, hj2, hfind]

/-- C2 witness: with an empty cache and a live endpoint, scoring `workS1`
then `workS1b` (same journal `S1`) issues exactly one network call and the
second call returns the memoized value. -/
theorem second_call_hits_cache_witness :
    get_journal_impact_score (fun _ => .ok 3) [] workS1
      = ⟨3, [("S1", 3)], ["S1"]⟩ ∧
    get_journal_impact_score (fun _ => .ok 3) [("S1", 3)] workS1b
      = ⟨3, [("S1", 3)], []⟩ :=
  second_call_hits_cache (fun _ => .ok 3) [] workS1 workS1b
    ("https://openalex.org/S1") ("https://openalex.org/S1") ("S1") 3
    rfl (by decide) rfl (by decide) rfl rfl rfl rfl

/-- C9: the cache is written only after a successful lookup.  A failing
lookup for an uncached journal id leaves the cache exactly as it was, and
a later call for the same id performs the network lookup again instead of
hitting the cache. -/
theorem failed_lookup_leaves_cache_unchanged
    (net : String → Except LookupErr ℚ) (cache : Cache) (work : Work)
    (u j : String) (e : LookupErr)
    (h : work.primary_location_source_id = some u) (hu : u ≠ "")
    (hj : lastSeg u = j) (hmiss : cache.find j = none)
    (hnet : net j = .error e) :
    get_journal_impact_score net cache work = ⟨0, cache, [j]⟩ ∧
    (get_journal_impact_score net
        (get_journal_impact_score net cache work).cache work).calls = [j] := by
  have hfirst : get_journal_impact_score net cache work = ⟨0, cache, [j]⟩ := by
    unfold get_journal_impact_score impactTryBody
    rw [h]
    simp [hu, hj, hmiss, hnet]
  exact ⟨hfirst, by rw [hfirst]; rw [hfirst]⟩

/-- C9 witness: a network that always fails leaves the cache empty across
two scoring attempts for `workS1`, both of which go to the network. -/
theorem failed_lookup_leaves_cache_unchanged_witness :
    get_journal_impact_score (fun _ => .error .badFloat) [] workS1
      = ⟨0, [], ["S1"]⟩ ∧
    (get_journal_impact_score (fun _ => .error .badFloat)
        (get_journal_impact_score (fun _ => .error .badFloat) [] workS1).cache
        workS1).calls = ["S1"] :=
  failed_lookup_leaves_cache_unchanged (fun _ => .error .badFloat) [] workS1
    ("https://openalex.org/S1") ("S1") .badFloat rfl (by decide) rfl rfl rfl

/-! ## Theorems: threshold filtering (C3) -/

/-- One scorer call under a consistent cache returns the cache-independent
score and preserves consistency. -/
theorem score_consistent (net : String → Except LookupErr ℚ) (cache : Cache)
    (work : Work) (hc : Consistent net cache) :
    (get_journal_impact_score net cache work).score = pureScore net work ∧
    Consistent net (get_journal_impact_score net cache work).cache := by
  rcases hid : work.primary_location_source_id with _ | u
  · refine ⟨?_, ?_⟩
    · simp [get_journal_impact_score, impactTryBody, pureScore, hid]
    · simpa [get_journal_impact_score, impactTryBody, hid] using hc
  · by_cases hu : u = ""
    · subst hu
      refine ⟨?_, ?_⟩
      · simp [get_journal_impact_score, impactTryBody, pureScore, hid]
      · simpa [get_journal_impact_score, impactTryBody, hid] using hc
    · rcases hfind : cache.find (lastSeg u) with _ | v
      · rcases hnet : net (lastSeg u) with e | impact
        · refine ⟨?_, ?_⟩
          · simp [get_journal_impact_score, impactTryBody, pureScore, hid, hu,
              hfind, hnet]
          · simpa [get_journal_impact_score, impactTryBody, hid, hu, hfind,
              hnet] using hc
        · refine ⟨?_, ?_⟩
          · simp [get_journal_impact_score, impactTryBody, pureScore, hid, hu,
              hfind, hnet]
          · intro j' v' hj'
            simp only [get_journal_impact_score, impactTryBody, hid, hu,
              if_neg hu, hfind, hnet] at hj'
            by_cases hjj : j' = lastSeg u
            · subst hjj
              simp [Cache.insert, Cache.find, List.lookup] at hj'
              rw [hnet, hj']
            · have hbeq : (j' == lastSeg u) = false := beq_eq_false_iff_ne.mpr hjj
              apply hc
              simpa [Cache.insert, Cache.find, List.lookup, hbeq] using hj'
      · have hnet := hc _ _ hfind
        refine ⟨?_, ?_⟩
        · simp [get_journal_impact_score, impactTryBody, pureScore, hid, hu,
            hfind, hnet]
        · simpa [get_journal_impact_score, impactTryBody, hid, hu, hfind]
            using hc

/-- The threaded filter of line 129 equals the pure threshold filter, for
any cache consistent with the oracle, and consistency is preserved. -/
theorem filterWorks_eq_filter (net : String → Except LookupErr ℚ) (T : ℚ) :
    ∀ (cache : Cache) (ws : List Work), Consistent net cache →
    (filterWorks net T cache ws).1
      = ws.filter (fun w => decide (T ≤ pureScore net w)) ∧
    Consistent net (filterWorks net T cache ws).2
  | cache, [], hc => ⟨rfl, hc⟩
  | cache, w :: ws, hc => by
    obtain ⟨hs, hcons⟩ := score_consistent net cache w hc
    obtain ⟨ih1, ih2⟩ :=
      filterWorks_eq_filter net T (get_journal_impact_score net cache w).cache ws hcons
    refine ⟨?_, ih2⟩
    simp only [filterWorks, List.filter, hs, ih1]
    by_cases hT : T ≤ pureScore net w
    · simp [hT]
    · simp [hT]

/-- C3: for every threshold `T` and every cache consistent with the
oracle (in particular the empty cache the run starts with), the works the
orchestrator keeps are exactly those with `score ≥ T`; a work scoring
exactly `T` is kept (inclusive comparison). -/
theorem filtered_set_is_threshold_filter
    (net : String → Except LookupErr ℚ) (T : ℚ) (cache : Cache)
    (ws : List Work) (hc : Consistent net cache) :
    (filterWorks net T cache ws).1
      = ws.filter (fun w => decide (T ≤ pureScore net w)) ∧
    ∀ w ∈ ws, pureScore net w = T → w ∈ (filterWorks net T cache ws).1 := by
  have h := filterWorks_eq_filter net T cache ws hc
  refine ⟨h.1, ?_⟩
  intro w hw hT
  rw [h.1]
  simp [List.mem_filter, hw, hT]

/-- A work hosted by a different journal, `S2`. -/
def workS2 : Work :=
  ⟨some ("T4"), none, none, some ("2023-05-10"), [], some ("https://openalex.org/S2")⟩

/-- C3 witness: threshold `1`, an endpoint scoring journal `S1` at exactly
`1` and `S2` at `0`: the work scoring exactly the threshold is kept, the
other is dropped. -/
theorem filtered_set_is_threshold_filter_witness :
    (filterWorks (fun j => if j = "S1" then .ok 1 else .ok 0) 1 []
        [workS1, workS2]).1 = [workS1] := by
  have h := filtered_set_is_threshold_filter
    (fun j => if j = "S1" then .ok 1 else .ok 0) 1 [] [workS1, workS2]
    (fun j v hv => by simp [Cache.find] at hv)
  rw [h.1]
  rfl

/-! ## Theorems: sorting (C6) -/

/-- A work with no `publication_date` field. -/
def workNoDate : Work :=
  ⟨some ("T5"), none, none, none, [], none⟩

/-- C6: the orchestrator's sort is by `publication_date` descending under
string comparison, a missing date comparing as `"1900-01-01"`: the output
is a permutation of the input, pairwise non-increasing in the date key,
and on works dated `2024-03-01` / `2023-05-10` / missing the rendered
order is `2024-03-01`, `2023-05-10`, then the missing-date work last. -/
theorem sort_by_date_descending (ws : List Work) :
    (sortWorks ws).Perm ws ∧
    (sortWorks ws).Pairwise (fun a b => dateKey b ≤ dateKey a) ∧
    sortWorks [workS2, workNoDate, workS1] = [workS1, workS2, workNoDate] := by
  refine ⟨List.mergeSort_perm ws _, ?_, ?_⟩
  · have htrans : ∀ a b c : Work, (decide (dateKey b ≤ dateKey a)) = true →
        (decide (dateKey c ≤ dateKey b)) = true →
        (decide (dateKey c ≤ dateKey a)) = true := by
      intro a b c hab hbc
      simp only [decide_eq_true_eq] at *
      exact le_trans hbc hab
    have htotal : ∀ a b : Work,
        ((decide (dateKey b ≤ dateKey a)) || (decide (dateKey a ≤ dateKey b)))
          = true := by
      intro a b
      simp only [Bool.or_eq_true, decide_eq_true_eq]
      exact le_total (dateKey b) (dateKey a)
    have h : (List.mergeSort ws fun a b => decide (dateKey b ≤ dateKey a)).Pairwise
        (fun a b => (decide (dateKey b ≤ dateKey a)) = true) :=
      List.sorted_mergeSort htrans htotal ws
    exact h.imp fun hab => of_decide_eq_true hab
  · simp +decide [sortWorks, List.mergeSort, List.splitInTwo, List.splitAt,
      List.splitAt.go, List.merge, dateKey, workS1, workS2, workNoDate]

/-! ## Theorems: configuration loading (C4) -/

/-- C4: `load_settings` returns the parsed YAML mapping when the file
opens and parses, fails when the file is missing or the YAML is
malformed, and such a failure propagates out of `main` (aborting the run
before any query is processed). -/
theorem load_settings_contract
    (fs : String → Except FileErr String)
    (parseYaml : String → Except YamlErr Config) (path : String) :
    (∀ e, fs path = .error e →
      load_settings fs parseYaml path = .error (.fileError e)) ∧
    (∀ txt e, fs path = .ok txt → parseYaml txt = .error e →
      load_settings fs parseYaml path = .error (.yamlError e)) ∧
    (∀ txt cfg, fs path = .ok txt → parseYaml txt = .ok cfg →
      load_settings fs parseYaml path = .ok cfg) ∧
    (∀ (fetchO : FetchReq → Except FetchErr (List Work))
      (net : String → Except LookupErr ℚ) (e : ConfigError),
      load_settings fs parseYaml ("settings/openalex_settings.yaml") = .error e →
      mainRun fs parseYaml fetchO net = .error (.config e)) := by
  refine ⟨?_, ?_, ?_, ?_⟩
  · intro e h
    simp [load_settings, h]
  · intro txt e h1 h2
    simp [load_settings, h1, h2]
  · intro txt cfg h1 h2
    simp [load_settings, h1, h2]
  · intro fetchO net e h
    simp [mainRun, h]

/-- C4 witness: a missing settings file aborts the whole run. -/
theorem load_settings_contract_witness :
    mainRun (fun _ => .error .notFound) (fun _ => .ok ⟨none, none, none⟩)
      (fun _ => .ok []) (fun _ => .ok 0)
      = .error (.config (.fileError .notFound)) :=
  (load_settings_contract (fun _ => .error .notFound)
      (fun _ => .ok ⟨none, none, none⟩) ("settings/openalex_settings.yaml")).2.2.2
    (fun _ => .ok []) (fun _ => .ok 0) (.fileError .notFound) rfl

/-! ## Theorems: the query loop (C7, C10) -/

/-- An unknown `type` value falls through both dispatch branches: the
query is skipped with no output, no exception and no cache change. -/
theorem processQuery_unknown_type
    (fetchO : FetchReq → Except FetchErr (List Work))
    (net : String → Except LookupErr ℚ) (email : String) (T : ℚ)
    (cache : Cache) (q : QueryDef) (t : String)
    (ht : q.type? = some t) (hk : t ≠ "keyword") (ha : t ≠ "authors") :
    processQuery fetchO net email T cache q = .ok (none, cache) := by
  unfold processQuery
  rw [ht]
  simp [hk, ha]

/-- C7: a query with an unrecognised `type` is skipped — it produces no
output, raises nothing, leaves the cache untouched — and the run over the
remaining queries (outputs included) is exactly what it would have been
without that query. -/
theorem unknown_type_query_skipped
    (fetchO : FetchReq → Except FetchErr (List Work))
    (net : String → Except LookupErr ℚ) (email : String) (T : ℚ)
    (cache : Cache) (k : String) (q : QueryDef) (t : String)
    (qs1 qs2 : List (String × QueryDef))
    (ht : q.type? = some t) (hk : t ≠ "keyword") (ha : t ≠ "authors") :
    processQuery fetchO net email T cache q = .ok (none, cache) ∧
    runQueries fetchO net email T cache (qs1 ++ (k, q) :: qs2)
      = runQueries fetchO net email T cache (qs1 ++ qs2) := by
  refine ⟨processQuery_unknown_type fetchO net email T cache q t ht hk ha, ?_⟩
  induction qs1 generalizing cache with
  | nil =>
    simp only [List.nil_append, runQueries]
    rw [processQuery_unknown_type fetchO net email T cache q t ht hk ha]
    cases hrq : runQueries fetchO net email T cache qs2 <;> simp [hrq]
  | cons p qs1 ih =>
    obtain ⟨k', q'⟩ := p
    simp only [List.cons_append, runQueries]
    cases processQuery fetchO net email T cache q' with
    | error e => rfl
    | ok r =>
      obtain ⟨out, cache'⟩ := r
      simp only [List.append_eq, ih]

/-- A query with `type: foo` (and nothing else a dispatch branch would
need). -/
def qFoo : QueryDef := ⟨some ("foo"), "skipped", none, none⟩

/-- A well-formed keyword query. -/
def qKw : QueryDef := ⟨some ("keyword"), "ml", some ("machine learning"), none⟩

/-- A works endpoint that returns one work for every request. -/
def fetchOne : FetchReq → Except FetchErr (List Work) := fun _ => .ok [workS1]

/-- A sources endpoint that scores every journal at `2`. -/
def netOk : String → Except LookupErr ℚ := fun _ => .ok 2

/-- C7 witness: with `type: foo` first in the configuration, the run
equals the run without it, and the subsequent keyword query still
produces its output file. -/
theorem unknown_type_query_skipped_witness :
    runQueries fetchOne netOk ("user at example.org") 0 []
        [("a", qFoo), ("b", qKw)]
      = runQueries fetchOne netOk ("user at example.org") 0 [] [("b", qKw)] ∧
    runQueries fetchOne netOk ("user at example.org") 0 []
        [("a", qFoo), ("b", qKw)]
      = .ok [("feeds/ml.xml", [workS1])] := by
  have h := (unknown_type_query_skipped fetchOne netOk ("user at example.org") 0
    [] ("a") qFoo ("foo") [] [("b", qKw)] rfl (by decide) (by decide)).2
  simp only [List.nil_append] at h
  refine ⟨h, ?_⟩
  rw [h]
  simp +decide [runQueries, processQuery, qKw, fetch_openalex_works, fetchOne,
    filterWorks, get_journal_impact_score, impactTryBody, workS1, netOk,
    Cache.find, sortWorks, List.mergeSort]

/-- C10: a query with no `type` key is processed exactly as if it said
`type: keyword` — same dispatch, same required `search` field, same
output — rather than being skipped as unknown. -/
theorem absent_type_defaults_to_keyword
    (fetchO : FetchReq → Except FetchErr (List Work))
    (net : String → Except LookupErr ℚ) (email : String) (T : ℚ)
    (cache : Cache) (feed_name : String) (search? : Option String)
    (authors? : Option (List AuthorRef)) :
    processQuery fetchO net email T cache ⟨none, feed_name, search?, authors?⟩
      = processQuery fetchO net email T cache
          ⟨some ("keyword"), feed_name, search?, authors?⟩ := rfl

/-! ## Theorems: feed rendering (C8) -/

/-- C8: feed generation emits one entry per input work, in order, whatever
the date oracle does.  The publication date string (defaulting to
`2024-01-01` when the field is absent) is fed to the ISO parser; on
success the entry's `pubDate` is the RFC-2822 rendering of the
UTC-interpreted datetime, and on a parse failure the entry is still
emitted, only with no `pubDate` — the feed as a whole is still produced. -/
theorem pubdate_parse_failure_is_item_level {DT E : Type}
    (parseIso : String → Except E DT) (toUtc : DT → DT)
    (fmt2822 : DT → String) (feed_title : String) (items : List Work)
    (output_file : String) :
    (generate_rss_feed parseIso toUtc fmt2822 feed_title items
        output_file).entries
      = items.map (renderItem parseIso toUtc fmt2822) ∧
    (∀ w : Work, w.publication_date? = none →
      (renderItem parseIso toUtc fmt2822 w).pubDate?
        = match parseIso ("2024-01-01") with
          | .ok dt => some (fmt2822 (toUtc dt))
          | .error _ => none) ∧
    (∀ (w : Work) (dt : DT),
      parseIso (w.publication_date?.getD ("2024-01-01")) = .ok dt →
      (renderItem parseIso toUtc fmt2822 w).pubDate?
        = some (fmt2822 (toUtc dt))) ∧
    (∀ (w : Work) (e : E),
      parseIso (w.publication_date?.getD ("2024-01-01")) = .error e →
      (renderItem parseIso toUtc fmt2822 w).pubDate? = none) := by
  refine ⟨rfl, ?_, ?_, ?_⟩
  · intro w h
    simp [renderItem, h]
  · intro w dt h
    simp [renderItem, h]
  · intro w e h
    simp [renderItem, h]

/-- An ISO parser (over trivial datetimes) that rejects exactly the
string `not-a-date`. -/
def parseBad : String → Except Unit Unit :=
  fun s => if s = "not-a-date" then .error () else .ok ()

/-- A work whose `publication_date` does not parse. -/
def workBadDate : Work :=
  ⟨some ("T6"), none, none, some ("not-a-date"), [], none⟩

/-- C8 witness: a feed over one work with an unparseable date still
contains that work's entry, with no `pubDate`. -/
theorem pubdate_parse_failure_is_item_level_witness :
    (generate_rss_feed parseBad (fun u => u) (fun _ => "Mon, 01 Jan 2024")
        "t" [workBadDate] "feeds/t.xml").entries
      = [renderItem parseBad (fun u => u) (fun _ => "Mon, 01 Jan 2024")
          workBadDate] ∧
    (renderItem parseBad (fun u => u) (fun _ => "Mon, 01 Jan 2024")
        workBadDate).pubDate? = none :=
  ⟨(pubdate_parse_failure_is_item_level parseBad (fun u => u)
      (fun _ => "Mon, 01 Jan 2024") "t" [workBadDate] "feeds/t.xml").1,
    (pubdate_parse_failure_is_item_level parseBad (fun u => u)
      (fun _ => "Mon, 01 Jan 2024") "t" [workBadDate] "feeds/t.xml").2.2.2
      workBadDate () rfl⟩
